import Mathlib

/-!
Shallow embedding of the open-webui pipelines repository (provider adapters,
RAG pipelines and tools) together with theorems checking the natural-language
specification against the code.

Conventions used throughout:
* Python dicts are modelled as association lists in insertion order
  (`List (String × _)`); dict assignment of a fresh key appends at the end.
* Machine integers are `Nat`/`Int`; Python `int(a * (b / c))` on nonnegative
  values is modelled as floored natural division.
* Fallible code returns `Except`; an `Except.error` value models an exception
  escaping the function uncaught.
* External SDK calls (Azure clients, HTTP requests, vector indexing) are
  abstracted as explicit parameters describing their outcome; everything the
  repository's own code does with those outcomes is translated directly from
  the source.
-/

namespace AzureOpenAIApi

/-! ### src/providers/azure_openai_api_pipeline.py -/

/-- An exception reaching `Pipeline.handle_openai_error`, tagged by its
concrete class.  `apiErrorOther` is an openai `APIError` instance that is none
of the five specific classes named by the handler (e.g. a bare
`APIStatusError`); `otherExc` is an exception that is not an openai
`APIError` at all.  The class hierarchy of the pinned SDK (`openai>=1.63.0`,
line 8 of the source) is: `APIConnectionError` and `APIStatusError` derive
from `APIError`, and `AuthenticationError`, `BadRequestError`,
`RateLimitError` and `InternalServerError` derive from `APIStatusError`. -/
inductive OpenAIExc where
  | apiErrorOther
  | authenticationError
  | apiConnectionError
  | badRequestError
  | rateLimitError
  | internalServerError
  | otherExc
deriving DecidableEq, Repr

/-- `isinstance(e, APIError)` under the pinned SDK hierarchy: true for every
tag except a non-SDK exception, because all the specific classes derive from
`APIError`. -/
def isinstance_APIError : OpenAIExc → Bool
  | .otherExc => false
  | _ => true

/-- `isinstance(e, AuthenticationError)` (a leaf class of the hierarchy). -/
def isinstance_AuthenticationError : OpenAIExc → Bool
  | .authenticationError => true
  | _ => false

/-- `isinstance(e, APIConnectionError)` (no further subclasses occur here). -/
def isinstance_APIConnectionError : OpenAIExc → Bool
  | .apiConnectionError => true
  | _ => false

/-- `isinstance(e, BadRequestError)` (a leaf class of the hierarchy). -/
def isinstance_BadRequestError : OpenAIExc → Bool
  | .badRequestError => true
  | _ => false

/-- `isinstance(e, RateLimitError)` (a leaf class of the hierarchy). -/
def isinstance_RateLimitError : OpenAIExc → Bool
  | .rateLimitError => true
  | _ => false

/-- `isinstance(e, InternalServerError)` (a leaf class of the hierarchy). -/
def isinstance_InternalServerError : OpenAIExc → Bool
  | .internalServerError => true
  | _ => false

/-- The `error` dict built by `handle_openai_error`:
`{"msg": ..., "detail": ", ".join(map(str, e.args)), "retry": ...}`. -/
structure OpenAIErrorInfo where
  msg : String
  detail : String
  retry : Bool
deriving DecidableEq, Repr

/-- `Pipeline.handle_openai_error` (lines 85-109).  `client` models
`self.client`; `newClient` models the value `self._openai_client()` would
return (credential acquisition is external IO).  `args` models
`", ".join(map(str, e.args))`.  Returns the error dict together with the
value of `self.client` after the call. -/
def handle_openai_error (newClient client : Nat) (args : String) (e : OpenAIExc) :
    OpenAIErrorInfo × Nat :=
  let error : OpenAIErrorInfo := { msg := "API Error", detail := args, retry := false }
  if isinstance_APIError e then
    ({ error with msg := "API Error", retry := true }, client)
  else if isinstance_AuthenticationError e then
    -- `self.client = self._openai_client()` (line 96)
    ({ error with msg := "Authentication Error", retry := true }, newClient)
  else if isinstance_APIConnectionError e then
    ({ error with msg := "Connection Error" }, client)
  else if isinstance_BadRequestError e then
    ({ error with msg := "Invalid Request Error" }, client)
  else if isinstance_RateLimitError e then
    ({ error with msg := "Request Exceeded Rate Limit", retry := true }, client)
  else if isinstance_InternalServerError e then
    ({ error with msg := "Service Unavailable Error" }, client)
  else
    ({ error with msg := "Unknown Error" }, client)

/-- `OPENAI_RETRY_MAX` (line 26). -/
def OPENAI_RETRY_MAX : Nat := 3

/-- Outcome of one `self.client.chat.completions.create(**parameters)` attempt
followed by the non-stream result extraction, as seen by the `while` loop of
`Pipeline.pipe`: either a returned content string or a raised exception
(with its `args` rendering). -/
inductive CallResult where
  | content (s : String)
  | raised (e : OpenAIExc) (args : String)
deriving DecidableEq, Repr

/-- What a call of `Pipeline.pipe`'s retry loop can produce: the returned
content, the returned formatted error message (the except branch that gives
up), Python's implicit `None` when the `while` guard fails, or an exception
escaping the function uncaught. -/
inductive PipeOutcome where
  | value (s : String)
  | errmsg (info : OpenAIErrorInfo)
  | pyNone
  | uncaught (e : String)
deriving DecidableEq, Repr

/-- The `while not response and retry_count < OPENAI_RETRY_MAX` loop of
`Pipeline.pipe` (lines 230-256), translated with Python's local-variable
semantics made explicit: `delay` is `none` until first assigned, and
`time.sleep(delay)` with `delay` unbound raises `UnboundLocalError` (no
statement in the source ever initializes `delay`).  `behave n` is the outcome
of the n-th provider call; `fuel` is `OPENAI_RETRY_MAX - retry_count`, which
bounds the remaining iterations.  Returns the outcome together with the
number of provider-call attempts made. -/
def pipeLoop (newClient : Nat) (behave : Nat → CallResult) (client : Nat)
    (delay : Option Nat) (retry_count attempts fuel : Nat) : PipeOutcome × Nat :=
  match fuel with
  | 0 => (.pyNone, attempts)
  | fuel + 1 =>
    if retry_count < OPENAI_RETRY_MAX then
      let rc := retry_count + 1
      match behave rc with
      | .content s => (.value s, attempts + 1)
      | .raised e args =>
        let handled := handle_openai_error newClient client args e
        let error := handled.1
        let client := handled.2
        if error.retry = true ∧ rc < OPENAI_RETRY_MAX then
          match delay with
          | none => (.uncaught "UnboundLocalError: delay", attempts + 1)
          | some d => pipeLoop newClient behave client (some (d * 2)) rc (attempts + 1) fuel
        else
          (.errmsg error, attempts + 1)
    else (.pyNone, attempts)

/-- The retry loop as entered by `Pipeline.pipe`: `response = None`,
`retry_count = 0`, and `delay` not yet bound. -/
def pipe_retry (newClient client : Nat) (behave : Nat → CallResult) : PipeOutcome × Nat :=
  pipeLoop newClient behave client none 0 0 OPENAI_RETRY_MAX

/-- Claim C1 (code bug): under the pinned SDK hierarchy every specific
exception class is an `APIError`, so the first `isinstance` branch takes them
all and the specific elif branches are dead code.  In particular a
`BadRequestError` is classified "API Error" with retry `True`, not "Invalid
Request Error" with retry `False` as the claim (and the evident intent of the
elif chain) states; in general the message is "API Error" for every `APIError`
instance and "Unknown Error" otherwise, and the retry flag equals
`isinstance(e, APIError)`. -/
theorem C1_api_error_branch_shadows (newClient client : Nat) (args : String)
    (e : OpenAIExc) :
    (handle_openai_error newClient client args .badRequestError).1 =
      { msg := "API Error", detail := args, retry := true } ∧
    (handle_openai_error newClient client args e).1.msg =
      (if isinstance_APIError e then "API Error" else "Unknown Error") ∧
    (handle_openai_error newClient client args e).1.retry = isinstance_APIError e := by
  refine ⟨rfl, ?_, ?_⟩ <;> cases e <;> rfl

/-- Claim C2 (code bug): because `AuthenticationError` derives from
`APIError`, the first branch handles it, the reacquire branch at lines 94-97
is unreachable, and `self.client` is left unchanged by `handle_openai_error`
for every exception — including authentication errors, which come out as
"API Error". -/
theorem C2_client_never_reacquired (newClient client : Nat) (args : String)
    (e : OpenAIExc) :
    (handle_openai_error newClient client args e).2 = client ∧
    (handle_openai_error newClient client args .authenticationError).1.msg =
      "API Error" := by
  refine ⟨?_, rfl⟩
  cases e <;> rfl

/-- Claim C3 (code bug): the source never initializes `delay`, so the very
first retryable failure crashes at `time.sleep(delay)` with
`UnboundLocalError` after a single provider-call attempt, instead of sleeping
with a doubling delay and retrying up to `OPENAI_RETRY_MAX` attempts. -/
theorem C3_uninitialized_delay_crash (newClient client : Nat) :
    pipe_retry newClient client (fun _ => .raised .rateLimitError "429") =
      (.uncaught "UnboundLocalError: delay", 1) := by
  rfl

end AzureOpenAIApi

namespace PyModel

/-! ### A small model of Python values and dict operations, shared by the
provider pipelines' request-body manipulation. -/

/-- Python values occurring in a request body: strings, ints, bools and dicts
(association lists in insertion order). -/
inductive PyVal where
  | pystr (s : String)
  | pyint (n : Int)
  | pybool (b : Bool)
  | pydict (entries : List (String × PyVal))

/-- Character-list core of Python's `str.startswith`. -/
def py_startswith_chars : List Char → List Char → Bool
  | [], _ => true
  | _ :: _, [] => false
  | p :: ps, c :: cs => p == c && py_startswith_chars ps cs

/-- Python's `s.startswith(p)`, as a structural recursion over the
characters (Lean's own `String.startsWith` is not kernel-reducible). -/
def py_startswith (s p : String) : Bool := py_startswith_chars p.data s.data

/-- Python exceptions relevant to the embedded code paths. -/
inductive PyExc where
  | typeError
  | keyError
  | indexError
  | unboundLocalError
deriving DecidableEq, Repr

/-- Dict key lookup (first, hence only, occurrence of the key). -/
def alist_get (body : List (String × PyVal)) (k : String) : Option PyVal :=
  match body with
  | [] => none
  | (key, v) :: rest => if key = k then some v else alist_get rest k

/-- Dict assignment `body[k] = v`: overwrite in place, or append for a fresh
key (Python dicts keep insertion order). -/
def alist_set (body : List (String × PyVal)) (k : String) (v : PyVal) :
    List (String × PyVal) :=
  match body with
  | [] => [(k, v)]
  | (key, w) :: rest =>
    if key = k then (key, v) :: rest else (key, w) :: alist_set rest k v

/-- `k in body` for a dict. -/
def hasKey (body : List (String × PyVal)) (k : String) : Bool :=
  (alist_get body k).isSome

/-- Python's `k in v` membership test: key test on dicts, substring test on
strings, and a `TypeError` on values that do not support membership
(ints, bools). -/
def pyContains (v : PyVal) (k : String) : Except PyExc Bool :=
  match v with
  | .pydict entries => .ok (entries.any (fun kv => kv.1 == k))
  | .pystr s => .ok (decide ((s.splitOn k).length > 1))
  | _ => .error .typeError

/-- Python's subscript `v[k]` with a string key: dict lookup (raising
`KeyError` when absent), `TypeError` on non-dicts. -/
def pyGetItem (v : PyVal) (k : String) : Except PyExc PyVal :=
  match v with
  | .pydict entries =>
    match alist_get entries k with
    | some w => .ok w
    | none => .error .keyError
  | _ => .error .typeError

/-- The `user`-field remapping shared verbatim by the three provider
pipelines (azure_openai_api_pipeline.py lines 199-201,
azure_openai_manifold_pipeline.py lines 107-109,
azure_ai_inference_pipeline.py lines 157-159):

`if "user" in body and not isinstance(body["user"], str):`
`    body["user"] = body["user"]["id"] if "id" in body["user"] else str(body["user"])`

`pyStr` abstracts Python's `str(...)` rendering of a value. -/
def remapUser (pyStr : PyVal → String) (body : List (String × PyVal)) :
    Except PyExc (List (String × PyVal)) :=
  match alist_get body "user" with
  | none => .ok body
  | some (.pystr _) => .ok body
  | some u =>
    match pyContains u "id" with
    | .error exc => .error exc
    | .ok true =>
      match pyGetItem u "id" with
      | .error exc => .error exc
      | .ok uid => .ok (alist_set body "user" uid)
    | .ok false => .ok (alist_set body "user" (.pystr (pyStr u)))

theorem any_key_of_alist_get_some (entries : List (String × PyVal)) (k : String)
    (v : PyVal) (h : alist_get entries k = some v) :
    entries.any (fun kv => kv.1 == k) = true := by
  induction entries with
  | nil => simp [alist_get] at h
  | cons kv rest ih =>
    rw [alist_get] at h
    by_cases hk : kv.1 = k
    · simp [hk]
    · simp only [hk, if_false] at h
      simp [ih h, hk]

theorem any_key_of_alist_get_none (entries : List (String × PyVal)) (k : String)
    (h : alist_get entries k = none) :
    entries.any (fun kv => kv.1 == k) = false := by
  induction entries with
  | nil => simp
  | cons kv rest ih =>
    rw [alist_get] at h
    by_cases hk : kv.1 = k
    · simp [hk] at h
    · simp only [hk, if_false] at h
      simp [ih h, hk]

/-- Claim C4, amended: the remap leaves a missing or string-valued `user`
field unchanged, replaces a dict with an `id` key by that `id` value, replaces
a dict without `id` by its `str(...)` rendering, but raises `TypeError` for a
non-string value that does not support membership testing (e.g. an int),
because `"id" in body["user"]` is evaluated first. -/
theorem C4_user_remap_cases (pyStr : PyVal → String) (body : List (String × PyVal)) :
    (alist_get body "user" = none → remapUser pyStr body = .ok body) ∧
    (∀ s, alist_get body "user" = some (.pystr s) → remapUser pyStr body = .ok body) ∧
    (∀ entries uid, alist_get body "user" = some (.pydict entries) →
      alist_get entries "id" = some uid →
      remapUser pyStr body = .ok (alist_set body "user" uid)) ∧
    (∀ entries, alist_get body "user" = some (.pydict entries) →
      alist_get entries "id" = none →
      remapUser pyStr body =
        .ok (alist_set body "user" (.pystr (pyStr (.pydict entries))))) ∧
    (∀ n, alist_get body "user" = some (.pyint n) →
      remapUser pyStr body = .error .typeError) := by
  refine ⟨?_, ?_, ?_, ?_, ?_⟩
  · intro h; simp [remapUser, h]
  · intro s h; simp [remapUser, h]
  · intro entries uid h h2
    simp [remapUser, h, pyContains, any_key_of_alist_get_some entries "id" uid h2,
      pyGetItem, h2]
  · intro entries h h2
    simp [remapUser, h, pyContains, any_key_of_alist_get_none entries "id" h2]
  · intro n h; simp [remapUser, h, pyContains]

/-- Witness for C4 at a concrete body: a dict-valued `user` carrying an `id`
is replaced by that id. -/
theorem C4_witness :
    remapUser (fun _ => "") [("user", PyVal.pydict [("id", PyVal.pystr "u1")])] =
      .ok [("user", PyVal.pystr "u1")] :=
  (C4_user_remap_cases _ _).2.2.1 [("id", PyVal.pystr "u1")] (PyVal.pystr "u1") rfl rfl

/-- Claim C4 counterexample: with `body["user"] = 5` (an int), the code raises
`TypeError` at `"id" in body["user"]` instead of replacing the value by
`str(body["user"]) = "5"` as the claim states. -/
theorem C4_counterexample :
    remapUser (fun _ => "5") [("user", PyVal.pyint 5)] = .error PyExc.typeError ∧
    remapUser (fun _ => "5") [("user", PyVal.pyint 5)] ≠
      .ok [("user", PyVal.pystr "5")] := by
  constructor
  · rfl
  · simp [remapUser, alist_get, pyContains]

end PyModel

namespace AzureOpenAIManifold

/-! ### src/providers/azure_openai_manifold_pipeline.py -/

open PyModel

/-- `allowed_params` (lines 99-102), including the source's misspelling
`funcions`; note it does NOT contain `max_completion_tokens`. -/
def allowed_params : List String :=
  ["messages", "temperature", "role", "content", "contentPart", "contentPartImage",
   "enhancements", "dataSources", "n", "stream", "stop", "max_tokens",
   "presence_penalty", "frequency_penalty", "logit_bias", "user", "function_call",
   "funcions", "tools", "tool_choice", "top_p", "log_probs", "top_logprobs",
   "response_format", "seed"]

/-- `o_model_not_allowed_params` (line 105). -/
def o_model_not_allowed_params : List String :=
  ["stream", "temperature", "top_p", "presence_penalty", "frequency_penalty",
   "logprobs", "top_logprobs", "logit_bias", "max_tokens"]

/-- The body filtering of `Pipeline.pipe` (lines 111-117): for an o-model,
first copy `max_tokens` to `max_completion_tokens` when the latter is absent
(dict insertion appends at the end), then keep only keys that are in
`allowed_params` and not in `o_model_not_allowed_params`; for any other model
keep only keys in `allowed_params`. -/
def filterBody (model_id : String) (body : List (String × PyVal)) :
    List (String × PyVal) :=
  if py_startswith model_id "o" then
    let body2 :=
      match alist_get body "max_tokens" with
      | some v =>
        if hasKey body "max_completion_tokens" then body
        else body ++ [("max_completion_tokens", v)]
      | none => body
    body2.filter (fun kv =>
      allowed_params.contains kv.1 && !o_model_not_allowed_params.contains kv.1)
  else
    body.filter (fun kv => allowed_params.contains kv.1)

/-- Claim C5 (code bug): for the o-model request
`{"messages": m, "max_tokens": 100, "stream": true}` the code copies
`max_tokens` into `max_completion_tokens`, but the filter then drops it again
because `max_completion_tokens` is missing from `allowed_params`; the body
actually sent carries no token limit at all. -/
theorem C5_max_completion_tokens_dropped :
    filterBody "o1"
      [("messages", PyVal.pystr "m"), ("max_tokens", PyVal.pyint 100),
       ("stream", PyVal.pybool true)] =
      [("messages", PyVal.pystr "m")] ∧
    hasKey
      (filterBody "o1"
        [("messages", PyVal.pystr "m"), ("max_tokens", PyVal.pyint 100),
         ("stream", PyVal.pybool true)]) "max_completion_tokens" = false := by
  constructor <;> rfl

end AzureOpenAIManifold

namespace Streaming

/-! ### `Pipeline.stream_response`, identical in
src/providers/azure_openai_api_pipeline.py (lines 258-264) and
src/providers/azure_ai_inference_pipeline.py (lines 195-201). -/

/-- `chunk.choices[0].delta`, carrying `delta.content` (a string or `None`). -/
structure Delta where
  content : Option String
deriving DecidableEq, Repr

/-- One element of `chunk.choices`. -/
structure ChunkChoice where
  delta : Delta
deriving DecidableEq, Repr

/-- One chunk of a streamed provider response. -/
structure Chunk where
  choices : List ChunkChoice
deriving DecidableEq, Repr

/-- `Pipeline.stream_response` as the list of values the generator yields,
translated from the loop body: skip a chunk whose `choices` is empty or
whose first choice's `delta.content` is falsy (`None` or the empty string),
otherwise yield the content. -/
def stream_response : List Chunk → List String
  | [] => []
  | chunk :: rest =>
    match chunk.choices with
    | [] => stream_response rest
    | c0 :: _ =>
      match c0.delta.content with
      | none => stream_response rest
      | some content =>
        if content = "" then stream_response rest
        else content :: stream_response rest

/-- The content of a chunk as the spec's words suggest ("the provider's
response chunks, forwarded verbatim"): what the chunk carries, with missing
content read as the empty string. -/
def specChunkContent (c : Chunk) : String :=
  match c.choices with
  | [] => ""
  | c0 :: _ => (c0.delta.content).getD ""

/-- The content extraction actually performed by the generator: `none`
exactly for the chunks the loop skips. -/
def extractContent (c : Chunk) : Option String :=
  match c.choices with
  | [] => none
  | c0 :: _ =>
    match c0.delta.content with
    | none => none
    | some s => if s = "" then none else some s

/-- Claim C7 counterexample: a stream consisting of one chunk with no choices
yields nothing, so the yielded sequence is not the sequence of chunk contents
(the generator is not a verbatim forwarding of the chunks). -/
theorem C7_counterexample :
    stream_response [Chunk.mk []] ≠
      List.map specChunkContent [Chunk.mk []] := by
  simp [stream_response, specChunkContent]

/-- Claim C7, amended: the generator yields, in order, exactly the non-empty
first-choice delta contents of the chunks; chunks with no choices or with
`None`/empty content are dropped, and nothing is added, reordered or
altered. -/
theorem C7_stream_filterMap (resp : List Chunk) :
    stream_response resp = resp.filterMap extractContent := by
  induction resp with
  | nil => rfl
  | cons c rest ih =>
    rw [stream_response, List.filterMap, extractContent]
    cases hc : c.choices with
    | nil => simpa using ih
    | cons c0 cs =>
      cases hd : c0.delta.content with
      | none => simp [hd, ih]
      | some s =>
        by_cases hs : s = ""
        · simp [hd, hs, ih]
        · simp [hd, hs, ih]

end Streaming

namespace AzureAiInference

/-! ### src/providers/azure_ai_inference_pipeline.py -/

/-- `choice.message.content` of a non-streamed completion (may be `None`). -/
structure AiChoice where
  content : Option String
deriving DecidableEq, Repr

/-- The object returned by `self.client.complete(**parameters)`: it exposes
`choices` when read as a completion and is iterable over chunks when the call
was made with `stream=True`. -/
structure AiResponse where
  choices : List AiChoice
  chunks : List Streaming.Chunk

/-- What `Pipeline.pipe` returns: a value (content string, `None`, or a
formatted error string) or the streaming generator with its yields. -/
inductive AiRet where
  | ret (s : Option String)
  | gen (ys : List String)
deriving DecidableEq, Repr

/-- The `try`/`except` body of `Pipeline.pipe` (lines 179-193).  `outcome` is
the result of the external `self.client.complete` call (`.error e` models the
call raising an exception rendered as `e`).  When the call raises, `response`
is still `None`, so the handler's `if response:` takes the falsy branch and
the formatted string `f"Error: e"` is returned.  When the call succeeds but
`response.choices` is empty, `response.choices[0]` raises `IndexError` inside
the `try`; the handler then takes the truthy branch and evaluates
`response.choices[0].message.content` again, so the `IndexError` escapes the
function uncaught. -/
def aiPipe (stream : Bool) (outcome : Except String AiResponse) :
    Except PyModel.PyExc AiRet :=
  match outcome with
  | .error e => .ok (.ret (some ("Error: " ++ e)))
  | .ok r =>
    if stream then .ok (.gen (Streaming.stream_response r.chunks))
    else
      match r.choices with
      | [] => .error .indexError
      | c0 :: _ => .ok (.ret c0.content)

end AzureAiInference

namespace AzureOpenAIManifold

/-- Python truthiness of a request-body value. -/
def pyTruthy : PyModel.PyVal → Bool
  | .pystr s => !(s == "")
  | .pyint n => !(n == 0)
  | .pybool b => b
  | .pydict entries => !entries.isEmpty

/-- The `requests.Response` fields the manifold pipe reads.  `ok` is
`status_code < 400`, which is also the truthiness of a `Response` object. -/
structure HttpResponse where
  ok : Bool
  text : String
  errStr : String
  lines : List String
  jsonVal : PyModel.PyVal

/-- What the manifold `Pipeline.pipe` returns from its request section. -/
inductive ManifoldRet where
  | lines (ls : List String)
  | json (v : PyModel.PyVal)
  | errText (s : String)

/-- The `try`/`except` request section of the manifold `Pipeline.pipe`
(lines 128-151).  `post` is the outcome of the external `requests.post` call.
If `requests.post` itself raises, the local `r` was never bound, and the
handler's `if r:` raises `UnboundLocalError`, which escapes the function.
If a response `r` was bound: a failing status makes `r.raise_for_status()`
raise, the handler finds `r` falsy (`Response.__bool__` is `ok`) and returns
`f"Error: e"`; with a good status, a missing `"stream"` key raises
`KeyError` at `body["stream"]`, caught with `r` bound and truthy, returning
`f"Error: e (r.text)"`; otherwise the pipe returns `r.iter_lines()` or
`r.json()` according to the truthiness of `body["stream"]`.  (Exceptions
raised by the diagnostic `dump_response(r)` are caught the same way with `r`
bound and are collapsed into the formatted-string paths here.) -/
def manifoldRequest (body : List (String × PyModel.PyVal))
    (post : Except String HttpResponse) : Except PyModel.PyExc ManifoldRet :=
  match post with
  | .error _ => .error .unboundLocalError
  | .ok r =>
    if !r.ok then .ok (.errText ("Error: " ++ r.errStr))
    else
      match PyModel.alist_get body "stream" with
      | none => .ok (.errText ("Error: KeyError (" ++ r.text ++ ")"))
      | some v =>
        if pyTruthy v then .ok (.lines r.lines) else .ok (.json r.jsonVal)

end AzureOpenAIManifold

namespace RagPipes

/-! ### `Pipeline.pipe` of src/rag/llamaindex_ollama_github_pipeline.py
(lines 337-365); the GitLab pipe (lines 315-344) is the same code. -/

/-- Lookup in `self.indexes`, a dict from repo id to a vector index; the
`Bool` value models the truthiness of the stored index. -/
def bool_alist_get (l : List (String × Bool)) (k : String) : Option Bool :=
  match l with
  | [] => none
  | (key, v) :: rest => if key = k then some v else bool_alist_get rest k

/-- What the RAG pipe returns on success: the streaming generator
`response.response_gen` or the whole response object. -/
inductive RagRet where
  | streamed (s : String)
  | whole (s : String)
deriving DecidableEq, Repr

/-- The RAG `Pipeline.pipe`: returns `None` when no truthy index is stored
for the repo; otherwise queries the engine (`query` is the outcome of the
external call chain).  On an exception the code raises a NEW formatted
exception (`raise Exception(f"Exception in llamaindex_ollama_github_pipeline
for repo_id - e")`) instead of returning a string; `.error` models that
uncaught raise. -/
def rag_pipe (indexes : List (String × Bool)) (modelValve repo_id : String)
    (query : Except String String) : Except String (Option RagRet) :=
  let hit :=
    match bool_alist_get indexes repo_id with
    | some b => b
    | none => false
  if hit = false then .ok none
  else
    let streaming := !(PyModel.py_startswith modelValve "o")
    match query with
    | .error m =>
      .error ("Exception in llamaindex_ollama_github_pipeline for " ++ repo_id ++ " - " ++ m)
    | .ok resp => .ok (some (if streaming then .streamed resp else .whole resp))

end RagPipes

/-- Claim C6 counterexample: the GitHub RAG pipe, called with an initialized
index for `"repo"` and a query engine whose call raises, terminates with an
uncaught exception instead of returning a formatted error string. -/
theorem C6_counterexample :
    (RagPipes.rag_pipe [("repo", true)] "gpt-4o-mini" "repo"
      (.error "boom")).isOk = false := by
  rfl

/-- Claim C6, amended: when the external call itself raises, the Azure AI
Inference pipe catches it and returns the formatted string `"Error: e"`; the
manifold pipe instead propagates an `UnboundLocalError` (its handler reads
the never-bound response variable `r`); and the RAG pipes wrap the exception
in a new formatted `Exception` and raise it to the caller rather than
returning it. -/
theorem C6_error_handling_amended :
    (∀ stream e, AzureAiInference.aiPipe stream (.error e) =
        .ok (.ret (some ("Error: " ++ e)))) ∧
    (∀ body e, AzureOpenAIManifold.manifoldRequest body (.error e) =
        .error PyModel.PyExc.unboundLocalError) ∧
    (∀ idx mv rid m, RagPipes.bool_alist_get idx rid = some true →
        RagPipes.rag_pipe idx mv rid (.error m) =
          .error ("Exception in llamaindex_ollama_github_pipeline for " ++
            rid ++ " - " ++ m)) := by
  refine ⟨fun _ _ => rfl, fun _ _ => rfl, ?_⟩
  intro idx mv rid m h
  simp [RagPipes.rag_pipe, h]

/-- Witness for C6: the amended statement applied at a concrete index map,
model valve and failing query. -/
theorem C6_witness :
    RagPipes.rag_pipe [("r", true)] "gpt-4o" "r" (.error "down") =
      .error "Exception in llamaindex_ollama_github_pipeline for r - down" :=
  C6_error_handling_amended.2.2 [("r", true)] "gpt-4o" "r" "down" rfl

namespace SetPipelines

/-! ### `Pipeline.set_pipelines`, identical in
src/providers/azure_openai_api_pipeline.py (lines 154-161) and
src/providers/azure_openai_manifold_pipeline.py (lines 55-62), and the same
zip pattern in src/providers/azure_ai_inference_pipeline.py (113-120). -/

/-- One dict `{"id": model, "name": name}` of `self.pipelines`. -/
structure PipeEntry where
  id : String
  name : String
deriving DecidableEq, Repr

/-- `Pipeline.set_pipelines`: split both valve strings on `";"` (Python's
`str.split(";")` and Lean's `String.splitOn ";"` agree for a non-empty
separator) and zip them into `{"id": ..., "name": ...}` entries; `zip`
truncates to the shorter list. -/
def set_pipelines (models_valve names_valve : String) : List PipeEntry :=
  let models := models_valve.splitOn ";"
  let model_names := names_valve.splitOn ";"
  (models.zip model_names).map (fun p => { id := p.1, name := p.2 })

theorem zip_getElemQ {α β : Type} (l : List α) (m : List β) (i : Nat) :
    (l.zip m)[i]? = l[i]?.bind (fun a => m[i]?.map (fun b => (a, b))) := by
  induction l generalizing m i with
  | nil => simp
  | cons a t ih =>
    cases m with
    | nil => simp
    | cons b u =>
      cases i with
      | zero => simp [List.zip_cons_cons]
      | succ j => simpa [List.zip_cons_cons] using ih u j

/-- Claim C8: `set_pipelines` builds a list whose length is the minimum of
the two split lengths, whose i-th entry pairs the i-th model with the i-th
model name, and which silently drops the extra entries of the longer list. -/
theorem C8_set_pipelines_zip (m n : String) :
    (set_pipelines m n).length =
      min ((m.splitOn ";").length) ((n.splitOn ";").length) ∧
    ∀ i : Nat, (set_pipelines m n)[i]? =
      ((m.splitOn ";")[i]?).bind
        (fun a => ((n.splitOn ";")[i]?).map (fun b => PipeEntry.mk a b)) := by
  constructor
  · simp [set_pipelines]
  · intro i
    simp only [set_pipelines, List.getElem?_map, zip_getElemQ]
    cases (m.splitOn ";")[i]? <;> cases (n.splitOn ";")[i]? <;> simp

end SetPipelines

namespace RagStartup

/-! ### Startup and indexing of the two RAG pipelines
(src/rag/llamaindex_ollama_github_pipeline.py and
src/rag/llamaindex_ollama_gitlab_pipeline.py). -/

open SetPipelines (PipeEntry)

/-- Generic association-list assignment (dict update, insertion order). -/
def alist_put {α : Type} (l : List (String × α)) (k : String) (v : α) :
    List (String × α) :=
  match l with
  | [] => [(k, v)]
  | (key, w) :: rest =>
    if key = k then (key, v) :: rest else (key, w) :: alist_put rest k v

/-- `[x.strip() for x in s.split(';')]`. -/
def splitStrip (s : String) : List String :=
  (s.splitOn ";").map (fun x => x.trim)

/-- `[x.strip() for x in v.split(';')] if v else []` for an `Optional[str]`
valve (`None` and the empty string are falsy). -/
def optSplitStrip : Option String → List String
  | none => []
  | some s => if s = "" then [] else splitStrip s

/-- The GitHub pipeline valves read by `get_repos`, `_init_embeddings` and
`on_startup`. -/
structure GithubValves where
  ENABLED : Bool
  GITHUB_TOKEN : String
  GITHUB_OWNERS : String
  GITHUB_REPOS : String
  GITHUB_BRANCHES : String
  INCLUDE_FILE_EXTENSIONS : Option String
  EXCLUDE_FILE_EXTENSIONS : Option String
  INCLUDE_DIRECTORIES : Option String
  EXCLUDE_DIRECTORIES : Option String
deriving DecidableEq, Repr

/-- The four per-repo filter dicts (`self.ext_excludes` etc.) that
`get_repos` fills in. -/
structure GithubFilters where
  ext_excludes : List (String × Option String)
  ext_includes : List (String × Option String)
  dir_excludes : List (String × Option String)
  dir_includes : List (String × Option String)
deriving DecidableEq, Repr

/-- The `for index, (owner, repo, branch) in enumerate(zip(...))` loop of the
GitHub `get_repos` (lines 137-152): build the `{"id", "name"}` entries and
assign the index-th element of each non-empty filter list (or `None`) under
the repo id.  The index is in range whenever the caller's length checks
passed, so the out-of-range `[i]?` default never fires there. -/
def githubReposLoop (ext_ex ext_in dir_ex dir_in : List String) :
    List ((String × String) × String) → Nat → GithubFilters →
      List PipeEntry × GithubFilters
  | [], _, f => ([], f)
  | ((owner, repo), branch) :: rest, i, f =>
    let repo_id := owner ++ ":" ++ repo ++ ":" ++ branch
    let entry : PipeEntry := ⟨repo_id, "GitHubRAG:" ++ repo_id⟩
    let f2 : GithubFilters :=
      { ext_excludes := alist_put f.ext_excludes repo_id
          (if ext_ex.isEmpty then none else ext_ex[i]?)
        ext_includes := alist_put f.ext_includes repo_id
          (if ext_in.isEmpty then none else ext_in[i]?)
        dir_excludes := alist_put f.dir_excludes repo_id
          (if dir_ex.isEmpty then none else dir_ex[i]?)
        dir_includes := alist_put f.dir_includes repo_id
          (if dir_in.isEmpty then none else dir_in[i]?) }
    let tail := githubReposLoop ext_ex ext_in dir_ex dir_in rest (i + 1) f2
    (entry :: tail.1, tail.2)

/-- The GitHub `Pipeline.get_repos` (lines 117-152): split and strip the
valves, bail out with `[]` on length mismatches, otherwise build the entries
and update the filter dicts. -/
def github_get_repos (v : GithubValves) (f : GithubFilters) :
    List PipeEntry × GithubFilters :=
  let owners := splitStrip v.GITHUB_OWNERS
  let repos := splitStrip v.GITHUB_REPOS
  let branches := splitStrip v.GITHUB_BRANCHES
  let ext_ex := optSplitStrip v.EXCLUDE_FILE_EXTENSIONS
  let ext_in := optSplitStrip v.INCLUDE_FILE_EXTENSIONS
  let dir_ex := optSplitStrip v.EXCLUDE_DIRECTORIES
  let dir_in := optSplitStrip v.INCLUDE_DIRECTORIES
  if !(owners.length == repos.length && repos.length == branches.length) then
    ([], f)
  else if [ext_ex, ext_in, dir_ex, dir_in].any
      (fun lst => !lst.isEmpty && !(lst.length == owners.length)) then
    ([], f)
  else
    githubReposLoop ext_ex ext_in dir_ex dir_in
      ((owners.zip repos).zip branches) 0 f

/-- The mutable fields of the GitHub `Pipeline` object touched by startup:
`self.indexes` (a dict from repo id to the truthiness of the stored vector
index; `none` models the initial `None`), the filter dicts, and
`self.pipelines`. -/
structure GithubState where
  valves : GithubValves
  indexes : Option (List (String × Bool))
  filters : GithubFilters
  pipelines : List PipeEntry

/-- `Pipeline.pipes` (lines 154-158): `get_repos` plus logging. -/
def github_pipes (s : GithubState) : List PipeEntry × GithubFilters :=
  github_get_repos s.valves s.filters

/-- `Pipeline.on_startup` (lines 326-330):
`self.pipelines = self.pipes(); self.valves.ENABLED = False`. -/
def github_on_startup (s : GithubState) : GithubState :=
  let pf := github_pipes s
  { s with pipelines := pf.1, filters := pf.2,
           valves := { s.valves with ENABLED := false } }

/-- `Pipeline._init_embeddings` (lines 217-319): return immediately when the
pipeline is disabled or no GitHub token is configured; the indexing loop
itself (GitHub reads, vectorizing) is external IO abstracted as `doIndex`. -/
def github_init_embeddings (doIndex : GithubState → GithubState)
    (s : GithubState) : GithubState :=
  if s.valves.ENABLED = false then s
  else if s.valves.GITHUB_TOKEN = "" then s
  else doIndex s

/-- `Pipeline.on_valves_updated` (lines 321-324). -/
def github_on_valves_updated (doIndex : GithubState → GithubState)
    (s : GithubState) : GithubState :=
  let pf := github_pipes s
  github_init_embeddings doIndex { s with pipelines := pf.1, filters := pf.2 }

/-- The GitLab pipeline valves read by `get_repos` and `on_startup`
(`GITLAB_PATHS` defaults to `""`, so it is modelled as a `String`). -/
structure GitlabValves where
  ENABLED : Bool
  GITLAB_TOKEN : String
  GITLAB_PROJECT_PATHS : String
  GITLAB_PATHS : String
  GITLAB_REFS : String
deriving DecidableEq, Repr

/-- `Pipeline._init_gitlab` (lines 120-131): keep the client when no token is
configured or one is already connected; otherwise the connection attempt is
external IO whose outcome is `connectOutcome` (`none` models the caught
connection failure, which leaves `self.gitlab_client` as `None`). -/
def gitlab_init (connectOutcome : Option Unit) (v : GitlabValves)
    (client : Option Unit) : Option Unit :=
  if v.GITLAB_TOKEN = "" then client
  else
    match client with
    | some _ => client
    | none => connectOutcome

/-- The GitLab `Pipeline.get_repos` (lines 146-166): split, strip and
`replace("/", "__")` the valves, return the `NULL` placeholder entry on a
length mismatch, otherwise connect the client and build the entries. -/
def gitlab_get_repos (connectOutcome : Option Unit) (v : GitlabValves)
    (client : Option Unit) : List PipeEntry × Option Unit :=
  let projects := (splitStrip v.GITLAB_PROJECT_PATHS).map
    (fun s => s.replace "/" "__")
  let paths := (splitStrip v.GITLAB_PATHS).map (fun s => s.replace "/" "__")
  let refs := splitStrip v.GITLAB_REFS
  if !(projects.length == paths.length && paths.length == refs.length) then
    ([⟨"GitlabRAG:NULL", "GitlabRAG:NULL"⟩], client)
  else
    let client2 := gitlab_init connectOutcome v client
    (((projects.zip paths).zip refs).map (fun t =>
      let repo_id := t.1.1 ++ ":" ++ t.1.2 ++ ":" ++ t.2
      ⟨repo_id, "GitlabRAG:" ++ repo_id⟩), client2)

/-- The mutable fields of the GitLab `Pipeline` object touched by startup. -/
structure GitlabState where
  valves : GitlabValves
  indexes : Option (List (String × Bool))
  gitlab_client : Option Unit
  pipelines : List PipeEntry

/-- GitLab `Pipeline.pipes` (lines 168-172). -/
def gitlab_pipes (connectOutcome : Option Unit) (s : GitlabState) :
    List PipeEntry × Option Unit :=
  gitlab_get_repos connectOutcome s.valves s.gitlab_client

/-- GitLab `Pipeline.on_startup` (lines 304-308). -/
def gitlab_on_startup (connectOutcome : Option Unit) (s : GitlabState) :
    GitlabState :=
  let pc := gitlab_pipes connectOutcome s
  { s with pipelines := pc.1, gitlab_client := pc.2,
           valves := { s.valves with ENABLED := false } }

/-- GitLab `Pipeline._init_embeddings` (lines 245-296): return immediately
when disabled; the indexing loop is external IO abstracted as `doIndex`. -/
def gitlab_init_embeddings (doIndex : GitlabState → GitlabState)
    (s : GitlabState) : GitlabState :=
  if s.valves.ENABLED = false then s else doIndex s

/-- Claim C9: `on_startup` of both RAG pipelines forces `valves.ENABLED` to
`False` and leaves `self.indexes` exactly as it was (no index is built at
server startup); and `_init_embeddings` — the only indexing entry point,
reached through `on_valves_updated` — is the identity whenever the pipeline
is disabled. -/
theorem C9_on_startup_no_indexing (s : GithubState) (t : GitlabState)
    (connectOutcome : Option Unit) (doIndexG : GithubState → GithubState)
    (doIndexL : GitlabState → GitlabState) :
    (github_on_startup s).indexes = s.indexes ∧
    (github_on_startup s).valves.ENABLED = false ∧
    (gitlab_on_startup connectOutcome t).indexes = t.indexes ∧
    (gitlab_on_startup connectOutcome t).valves.ENABLED = false ∧
    (s.valves.ENABLED = false → github_init_embeddings doIndexG s = s) ∧
    (t.valves.ENABLED = false → gitlab_init_embeddings doIndexL t = t) := by
  refine ⟨rfl, rfl, rfl, rfl, ?_, ?_⟩ <;> intro h <;>
    simp [github_init_embeddings, gitlab_init_embeddings, h]

/-- A concrete freshly-constructed GitHub pipeline state. -/
def sampleGithubState : GithubState :=
  { valves :=
      { ENABLED := false, GITHUB_TOKEN := "", GITHUB_OWNERS := "",
        GITHUB_REPOS := "", GITHUB_BRANCHES := "main",
        INCLUDE_FILE_EXTENSIONS := none,
        EXCLUDE_FILE_EXTENSIONS := some ".png;.jpg",
        INCLUDE_DIRECTORIES := none, EXCLUDE_DIRECTORIES := none }
    indexes := none
    filters := { ext_excludes := [], ext_includes := [],
                 dir_excludes := [], dir_includes := [] }
    pipelines := [] }

/-- A concrete freshly-constructed GitLab pipeline state. -/
def sampleGitlabState : GitlabState :=
  { valves :=
      { ENABLED := false, GITLAB_TOKEN := "", GITLAB_PROJECT_PATHS := "",
        GITLAB_PATHS := "", GITLAB_REFS := "HEAD" }
    indexes := none
    gitlab_client := none
    pipelines := [] }

/-- Witness for C9 at the concrete sample states (both disabled). -/
theorem C9_witness :
    (github_on_startup sampleGithubState).indexes = sampleGithubState.indexes ∧
    (gitlab_on_startup none sampleGitlabState).indexes =
      sampleGitlabState.indexes ∧
    github_init_embeddings id sampleGithubState = sampleGithubState ∧
    gitlab_init_embeddings id sampleGitlabState = sampleGitlabState :=
  ⟨(C9_on_startup_no_indexing sampleGithubState sampleGitlabState none id id).1,
   (C9_on_startup_no_indexing sampleGithubState sampleGitlabState none id id).2.2.1,
   (C9_on_startup_no_indexing sampleGithubState sampleGitlabState none id id).2.2.2.2.1 rfl,
   (C9_on_startup_no_indexing sampleGithubState sampleGitlabState none id id).2.2.2.2.2 rfl⟩

end RagStartup

namespace PlantUml

/-! ### `Utils.scale_down` of src/tools/plantuml-diagrams.py (lines 37-68).

The source computes with IEEE doubles: `int(height * (max_size/float(width)))`
and later `int((new_width/max_width) * max_height)` (or symmetrically).  To
stay faithful to the float arithmetic, the truncation `int(a * (b/c))` is an
abstract parameter `itrunc a b c`, and the theorems quantify over every
`itrunc` satisfying two facts that IEEE double evaluation guarantees here:

* a relative-error band of `2^-20 = 1/1048576` around the exact rational
  value (double rounding errors are below `2^-50` per operation, far inside
  this band, for all operand magnitudes the tool can meet), expressed with
  floored `Nat` division as
  `a*b*1048575/(c*1048576) ≤ itrunc a b c ≤ a*b*1048577/(c*1048576)`; and
* exactness when the divisor is the constant `2048 = 2^11` and the product is
  small: `b/2048` is a dyadic rational represented exactly, and
  `a * (b/2048)` with `a*b < 2^53` is computed exactly, so
  `itrunc a b 2048 = a*b/2048`.

`none` models a `ZeroDivisionError`. -/

/-- `max_width` after the first aspect-ratio scaling step
(`max_size` when `width > height`, else `int(width * (max_size/height))`). -/
def scale_max_width (itrunc : Nat → Nat → Nat → Nat)
    (width height max_size : Nat) : Nat :=
  if height < width then max_size else itrunc width max_size height

/-- `max_height` after the first aspect-ratio scaling step. -/
def scale_max_height (itrunc : Nat → Nat → Nat → Nat)
    (width height max_size : Nat) : Nat :=
  if height < width then itrunc height max_size width else max_size

/-- `Utils.scale_down`: scale to fit `max_size`, then rescale so the shorter
side is `shortest`.  The second step computes
`int((shortest/max_width) * max_height)` (or symmetrically), i.e.
`itrunc max_height shortest max_width`, dividing by the smaller of the two
scaled sides — a `ZeroDivisionError` when that side truncated to zero. -/
def scale_down (itrunc : Nat → Nat → Nat → Nat)
    (width height shortest max_size : Nat) : Option (Nat × Nat) :=
  let mw := scale_max_width itrunc width height max_size
  let mh := scale_max_height itrunc width height max_size
  if mw < mh then
    if mw = 0 then none else some (shortest, itrunc mh shortest mw)
  else
    if mh = 0 then none else some (itrunc mw shortest mh, shortest)

/-- The exact floored evaluation of `int(a * (b/c))`.  It lies inside the
float band, and at inputs whose intermediate values are all powers of two
(such as `(4096, 1)`) it coincides with the actual IEEE evaluation. -/
def exactTrunc (a b c : Nat) : Nat := a * b / c

theorem exactTrunc_band (a b c : Nat) (_hc : 0 < c) :
    a * b * 1048575 / (c * 1048576) ≤ exactTrunc a b c ∧
    exactTrunc a b c ≤ a * b * 1048577 / (c * 1048576) := by
  have hmid : a * b * 1048576 / (c * 1048576) = a * b / c :=
    Nat.mul_div_mul_right (a * b) c (by omega)
  constructor
  · calc a * b * 1048575 / (c * 1048576)
        ≤ a * b * 1048576 / (c * 1048576) := Nat.div_le_div_right (by omega)
      _ = exactTrunc a b c := hmid
  · calc exactTrunc a b c
        = a * b * 1048576 / (c * 1048576) := hmid.symm
      _ ≤ a * b * 1048577 / (c * 1048576) := Nat.div_le_div_right (by omega)

/-- Claim C10 counterexample: at the positive dimensions `(4096, 1)` the
first scaling step truncates `max_height` to `int(1 * (2048/4096)) =
int(0.5) = 0` — every float step is exact here, so `exactTrunc` is the real
evaluation — and `scale_down` divides by zero instead of returning a pair. -/
theorem C10_counterexample : scale_down exactTrunc 4096 1 768 2048 = none := by
  rfl

/-- The second-stage truncation `int((768/m) * 2048) = itrunc 2048 768 m` is
at least 768 for any in-band evaluation, as long as the dividing side `m` is
between 1 and 2047: the exact ratio is at least `768 * 2048/2047 ≈ 768.375`,
and the band is far narrower than the `0.375` margin. -/
theorem itrunc_ge_768 (itrunc : Nat → Nat → Nat → Nat)
    (hband : ∀ a b c : Nat, 0 < c →
      a * b * 1048575 / (c * 1048576) ≤ itrunc a b c ∧
      itrunc a b c ≤ a * b * 1048577 / (c * 1048576))
    (m : Nat) (h1 : 0 < m) (h2 : m ≤ 2047) : 768 ≤ itrunc 2048 768 m := by
  have hlo := (hband 2048 768 m h1).1
  have h3 : 768 ≤ 2048 * 768 * 1048575 / (m * 1048576) := by
    rw [Nat.le_div_iff_mul_le (by omega)]
    omega
  exact le_trans h3 hlo

/-- Claim C10, amended: for positive dimensions whose aspect ratio is at most
2047 (`max(w,h) ≤ 2047 * min(w,h)`), every evaluation of `scale_down w h 768
2048` whose float truncations satisfy the IEEE band and the
exact-division-by-2048 property — the actual double evaluation among them —
returns a pair whose smaller component is exactly 768 and performs no
division by zero.  Beyond that ratio, up to and including the boundary
`max = 2048 * min` (e.g. `(100352, 49)`, where the float computes
`int(49 * (2048/100352)) = int(0.9999999999999999) = 0`), the first scaling
step can truncate the shorter scaled side to zero and raise
`ZeroDivisionError`, as `(4096, 1)` does outright. -/
theorem C10_scale_down_amended (itrunc : Nat → Nat → Nat → Nat)
    (hband : ∀ a b c : Nat, 0 < c →
      a * b * 1048575 / (c * 1048576) ≤ itrunc a b c ∧
      itrunc a b c ≤ a * b * 1048577 / (c * 1048576))
    (hexact2048 : ∀ a b : Nat, a * b < 9007199254740992 →
      itrunc a b 2048 = a * b / 2048)
    (w h : Nat) (hw : 0 < w) (hh : 0 < h)
    (har : max w h ≤ 2047 * min w h) :
    ∃ nw nh, scale_down itrunc w h 768 2048 = some (nw, nh) ∧
      min nw nh = 768 := by
  by_cases hlt : h < w
  · -- landscape: mw = 2048, mh = itrunc h 2048 w ∈ [1, 2048]
    have hwa : w ≤ 2047 * h := by
      rw [Nat.max_eq_left (Nat.le_of_lt hlt),
        Nat.min_eq_right (Nat.le_of_lt hlt)] at har
      exact har
    have hlo := (hband h 2048 w hw).1
    have hhi := (hband h 2048 w hw).2
    have hpos : 0 < itrunc h 2048 w := by
      have h1 : 0 < h * 2048 * 1048575 / (w * 1048576) :=
        Nat.div_pos (by omega) (by omega)
      exact lt_of_lt_of_le h1 hlo
    have hle2048 : itrunc h 2048 w ≤ 2048 := by
      have h2 : h * 2048 * 1048577 / (w * 1048576) < 2049 :=
        Nat.div_lt_of_lt_mul (by omega)
      omega
    have hnw : 768 ≤ itrunc 2048 768 (itrunc h 2048 w) := by
      by_cases h2048 : itrunc h 2048 w = 2048
      · rw [h2048, hexact2048 2048 768 (by omega)]
      · exact itrunc_ge_768 itrunc hband _ hpos (by omega)
    refine ⟨itrunc 2048 768 (itrunc h 2048 w), 768, ?_, Nat.min_eq_right hnw⟩
    simp only [scale_down, scale_max_width, scale_max_height]
    rw [if_pos hlt, if_pos hlt, if_neg (by omega), if_neg (by omega)]
  · -- portrait or square: mw = itrunc w 2048 h ∈ [1, 2048], mh = 2048
    have hwle : w ≤ h := Nat.le_of_not_lt hlt
    have hha : h ≤ 2047 * w := by
      rw [Nat.max_eq_right hwle, Nat.min_eq_left hwle] at har
      exact har
    have hlo := (hband w 2048 h hh).1
    have hhi := (hband w 2048 h hh).2
    have hpos : 0 < itrunc w 2048 h := by
      have h1 : 0 < w * 2048 * 1048575 / (h * 1048576) :=
        Nat.div_pos (by omega) (by omega)
      exact lt_of_lt_of_le h1 hlo
    have hle2048 : itrunc w 2048 h ≤ 2048 := by
      have h2 : w * 2048 * 1048577 / (h * 1048576) < 2049 :=
        Nat.div_lt_of_lt_mul (by omega)
      omega
    by_cases hsm : itrunc w 2048 h < 2048
    · have hge : 768 ≤ itrunc 2048 768 (itrunc w 2048 h) :=
        itrunc_ge_768 itrunc hband _ hpos (by omega)
      refine ⟨768, itrunc 2048 768 (itrunc w 2048 h), ?_, Nat.min_eq_left hge⟩
      simp only [scale_down, scale_max_width, scale_max_height]
      rw [if_neg hlt, if_neg hlt, if_pos hsm, if_neg (by omega)]
    · have heq : itrunc w 2048 h = 2048 := by omega
      refine ⟨768, 768, ?_, by simp⟩
      simp only [scale_down, scale_max_width, scale_max_height]
      rw [if_neg hlt, if_neg hlt, heq, if_neg (lt_irrefl 2048),
        if_neg (by omega : ¬(2048 = 0)), hexact2048 2048 768 (by omega)]

/-- Witness for C10: the amended statement applied to the exact in-band
evaluation at the concrete dimensions `(1024, 2048)`. -/
theorem C10_witness :
    ∃ nw nh, scale_down exactTrunc 1024 2048 768 2048 = some (nw, nh) ∧
      min nw nh = 768 :=
  C10_scale_down_amended exactTrunc
    (fun a b c hc => exactTrunc_band a b c hc) (fun _ _ _ => rfl)
    1024 2048 (by decide) (by decide) (by decide)

end PlantUml
